import Mathlib

/-!
Verification development for the OAuth 2.1 authorization-code-with-PKCE
subsystem of the hevy-mcp-server repository (handlers `handleAuthorize`,
`handleToken`, `validateBearerToken`, the PKCE verifier
`verifyCodeChallenge` and the periodic sweep over the two in-memory
stores `authorizationCodes` and `accessTokens`).

The TypeScript handlers are shallowly embedded as pure Lean functions:
the two global `Map`s become explicit association lists threaded through
each handler, `Date.now()` becomes an explicit `now : Nat` argument
(milliseconds), and each call to the random generator
`generateRandomString` becomes an explicit `fresh : String` argument.
HTTP responses and the structured-logger calls (`authFailure`,
`authAttempt`) become inductive result values; purely informational
`logger.info` calls and the request IP (which never influence control
flow or state) are elided.  JavaScript string truthiness (`undefined`
and `""` are falsy) is modelled by `jsTruthy` on `Option String`.
-/

/-- JavaScript truthiness of a `string | undefined` value: `undefined`
and the empty string are falsy, every other string is truthy. -/
def jsTruthy : Option String → Bool
  | none => false
  | some s => s != ""

/-- Read a `string | undefined` value where the code uses it as a string
(after a truthiness check has established it is a non-empty string). -/
def jsStr (o : Option String) : String := o.getD ""

/-- JavaScript `x || d` on a `string | undefined` value `x`:
the default `d` is taken when `x` is `undefined` or the empty string. -/
def jsOr (o : Option String) (d : String) : String :=
  match o with
  | none => d
  | some s => if s == "" then d else s

/-- Model of `Map.prototype.get`: first binding of the key, if any. -/
def mapGet {α : Type} (m : List (String × α)) (k : String) : Option α :=
  (m.find? (fun p => p.1 == k)).map (fun p => p.2)

/-- Model of `Map.prototype.set`: replace the binding in place if the
key is present, otherwise append the new binding. -/
def mapSet {α : Type} : List (String × α) → String → α → List (String × α)
  | [], k, v => [(k, v)]
  | (k', v') :: rest, k, v =>
      if k' == k then (k, v) :: rest else (k', v') :: mapSet rest k v

/-- Model of `Map.prototype.delete`: drop every binding of the key. -/
def mapErase {α : Type} (m : List (String × α)) (k : String) : List (String × α) :=
  m.filter (fun p => p.1 != k)

/-- Model of JavaScript `String.prototype.startsWith` on char lists:
`charsLeadWith s pat` is true when `pat` is an initial segment of `s`. -/
def charsLeadWith : List Char → List Char → Bool
  | _, [] => true
  | [], _ :: _ => false
  | a :: as, b :: bs => a == b && charsLeadWith as bs

/-- Model of JavaScript `s.startsWith(pat)`. -/
def strStartsWith (s pat : String) : Bool := charsLeadWith s.data pat.data

/-- Model of JavaScript `s.substring(n)`: drop the first `n` characters. -/
def jsSubstringFrom (n : Nat) (s : String) : String := String.mk (s.data.drop n)

/-! ### SHA-256 and base64url

Model of `crypto.createHash('sha256').update(verifier).digest('base64url')`
as used by the PKCE verifier: full SHA-256 over the UTF-8 bytes of the
input, digest rendered in the URL-safe base64 alphabet without padding.
Machine words are `Nat`s reduced mod `2 ^ 32` where overflow matters. -/

/-- UTF-8 encoding of a single code point as a list of bytes. -/
def utf8Bytes (c : Nat) : List Nat :=
  if c < 0x80 then [c]
  else if c < 0x800 then [0xC0 + c / 64, 0x80 + c % 64]
  else if c < 0x10000 then
    [0xE0 + c / 4096, 0x80 + (c / 64) % 64, 0x80 + c % 64]
  else
    [0xF0 + c / 262144, 0x80 + (c / 4096) % 64, 0x80 + (c / 64) % 64, 0x80 + c % 64]

/-- UTF-8 bytes of a string (what `hash.update(str)` feeds the hash). -/
def strBytes (s : String) : List Nat :=
  s.data.foldr (fun c acc => utf8Bytes c.toNat ++ acc) []

/-- Big-endian byte rendering of `val` in `n` bytes. -/
def beBytes (n : Nat) (val : Nat) : List Nat :=
  (List.range n).map (fun i => val / 256 ^ (n - 1 - i) % 256)

/-- SHA-256 message padding: append `0x80`, zero bytes to 56 mod 64,
then the 64-bit big-endian bit length. -/
def sha256pad (msg : List Nat) : List Nat :=
  msg ++ [0x80] ++ List.replicate ((119 - msg.length % 64) % 64) 0
      ++ beBytes 8 (msg.length * 8)

/-- Split a byte list into 64-byte blocks (`fuel` bounds the recursion;
callers pass the list length). -/
def chunks64 : Nat → List Nat → List (List Nat)
  | 0, _ => []
  | _ + 1, [] => []
  | fuel + 1, l => l.take 64 :: chunks64 fuel (l.drop 64)

/-- Rotate a 32-bit word right by `n` bit positions. -/
def rotr32 (n x : Nat) : Nat := ((x >>> n) ||| (x <<< (32 - n))) % 2 ^ 32

/-- The sixty-four SHA-256 round constants (decimal). -/
def sha256K : List Nat :=
  [1116352408, 1899447441, 3049323471, 3921009573, 961987163, 1508970993,
   2453635748, 2870763221, 3624381080, 310598401, 607225278, 1426881987,
   1925078388, 2162078206, 2614888103, 3248222580, 3835390401, 4022224774,
   264347078, 604807628, 770255983, 1249150122, 1555081692, 1996064986,
   2554220882, 2821834349, 2952996808, 3210313671, 3336571891, 3584528711,
   113926993, 338241895, 666307205, 773529912, 1294757372, 1396182291,
   1695183700, 1986661051, 2177026350, 2456956037, 2730485921, 2820302411,
   3259730800, 3345764771, 3516065817, 3600352804, 4094571909, 275423344,
   430227734, 506948616, 659060556, 883997877, 958139571, 1322822218,
   1537002063, 1747873779, 1955562222, 2024104815, 2227730452, 2361852424,
   2428436474, 2756734187, 3204031479, 3329325298]

/-- The eight initial SHA-256 state words (decimal). -/
def sha256H0 : List Nat :=
  [1779033703, 3144134277, 1013904242, 2773480762,
   1359893119, 2600822924, 528734635, 1541459225]

/-- One extension step of the SHA-256 message schedule: append the next
word computed from the last 2nd, 7th, 15th and 16th words. -/
def scheduleStep (w : List Nat) : List Nat :=
  w ++ [(
    let n := w.length
    let w15 := w.getD (n - 15) 0
    let w2 := w.getD (n - 2) 0
    let s0 := rotr32 7 w15 ^^^ rotr32 18 w15 ^^^ (w15 >>> 3)
    let s1 := rotr32 17 w2 ^^^ rotr32 19 w2 ^^^ (w2 >>> 10)
    (w.getD (n - 16) 0 + s0 + w.getD (n - 7) 0 + s1) % 2 ^ 32)]

/-- Iterate the schedule extension `n` times. -/
def scheduleExtend : Nat → List Nat → List Nat
  | 0, w => w
  | n + 1, w => scheduleExtend n (scheduleStep w)

/-- The initial 16 words of a 64-byte block, big-endian. -/
def blockWords : List Nat → List Nat
  | b1 :: b2 :: b3 :: b4 :: rest =>
      (((b1 * 256 + b2) * 256 + b3) * 256 + b4) :: blockWords rest
  | _ => []

/-- One SHA-256 compression round on the eight working registers. -/
def sha256round (st : List Nat) (kw : Nat × Nat) : List Nat :=
  let a := st.getD 0 0
  let b := st.getD 1 0
  let c := st.getD 2 0
  let d := st.getD 3 0
  let e := st.getD 4 0
  let f := st.getD 5 0
  let g := st.getD 6 0
  let h := st.getD 7 0
  let s1 := rotr32 6 e ^^^ rotr32 11 e ^^^ rotr32 25 e
  let ch := (e &&& f) ^^^ ((e ^^^ 0xffffffff) &&& g)
  let temp1 := (h + s1 + ch + kw.1 + kw.2) % 2 ^ 32
  let s0 := rotr32 2 a ^^^ rotr32 13 a ^^^ rotr32 22 a
  let maj := (a &&& b) ^^^ (a &&& c) ^^^ (b &&& c)
  let temp2 := (s0 + maj) % 2 ^ 32
  [(temp1 + temp2) % 2 ^ 32, a, b, c, (d + temp1) % 2 ^ 32, e, f, g]

/-- Compress one 64-byte block into the running hash state. -/
def sha256block (hstate : List Nat) (block : List Nat) : List Nat :=
  let w := scheduleExtend 48 (blockWords block)
  let final := (sha256K.zip w).foldl sha256round hstate
  (hstate.zip final).map (fun p => (p.1 + p.2) % 2 ^ 32)

/-- SHA-256 digest (32 bytes) of a byte list. -/
def sha256bytes (msg : List Nat) : List Nat :=
  let padded := sha256pad msg
  ((chunks64 padded.length padded).foldl sha256block sha256H0).flatMap (beBytes 4)

/-- The URL-safe base64 alphabet. -/
def b64urlAlphabet : List Char :=
  "ABCDEFGHIJKLMNOPQRSTUVWXYZabcdefghijklmnopqrstuvwxyz0123456789-_".data

/-- Character for a 6-bit value in the URL-safe base64 alphabet. -/
def b64c (n : Nat) : Char := b64urlAlphabet.getD n 'A'

/-- base64url encoding (no padding) of a byte list. -/
def base64urlEncode : List Nat → List Char
  | [] => []
  | [b1] => [b64c (b1 / 4), b64c (b1 % 4 * 16)]
  | [b1, b2] => [b64c (b1 / 4), b64c (b1 % 4 * 16 + b2 / 16), b64c (b2 % 16 * 4)]
  | b1 :: b2 :: b3 :: rest =>
      b64c (b1 / 4) :: b64c (b1 % 4 * 16 + b2 / 16) ::
        b64c (b2 % 16 * 4 + b3 / 64) :: b64c (b3 % 64) :: base64urlEncode rest

/-- Model of `crypto.createHash('sha256').update(s).digest('base64url')`. -/
def sha256base64url (s : String) : String :=
  String.mk (base64urlEncode (sha256bytes (strBytes s)))

/-- The PKCE verifier `verifyCodeChallenge` from the source: under
`S256` compare the base64url-encoded SHA-256 of the verifier with the
challenge, under `plain` compare the strings, otherwise false. -/
def verifyCodeChallenge (verifier challenge method : String) : Bool :=
  if method == "S256" then
    sha256base64url verifier == challenge
  else if method == "plain" then
    verifier == challenge
  else
    false

/-! ### Data model and server state -/

/-- A pending authorization session, exactly the `AuthorizationSession`
interface of the source (timestamps in milliseconds). -/
structure AuthorizationSession where
  codeChallenge : String
  codeChallengeMethod : String
  redirectUri : String
  clientId : String
  scope : String
  state : String
  resource : String
  createdAt : Nat
deriving DecidableEq

/-- An issued access token, exactly the `AccessToken` interface of the
source. -/
structure AccessToken where
  token : String
  clientId : String
  scope : String
  resource : String
  expiresAt : Nat
  createdAt : Nat
deriving DecidableEq

/-- The two module-level stores of the source,
`authorizationCodes : Map<string, AuthorizationSession>` and
`accessTokens : Map<string, AccessToken>`, as association lists. -/
structure ServerState where
  authorizationCodes : List (String × AuthorizationSession)
  accessTokens : List (String × AccessToken)
deriving DecidableEq

/-- Structured-logger events that the handlers emit (`logger.authFailure`
with its reason code, `logger.authAttempt`); the request IP argument is
elided as it never affects state or responses. -/
inductive LogEvent where
  | authFailure (reason : String)
  | authAttempt (success : Bool) (clientId : String)
deriving DecidableEq

/-- Query parameters of `GET /authorize` (each `string | undefined`). -/
structure AuthorizeRequest where
  client_id : Option String := none
  redirect_uri : Option String := none
  response_type : Option String := none
  code_challenge : Option String := none
  code_challenge_method : Option String := none
  state : Option String := none
  scope : Option String := none
  resource : Option String := none
deriving DecidableEq

/-- JSON body fields of `POST /token` (each `string | undefined`). -/
structure TokenRequest where
  grant_type : Option String := none
  code : Option String := none
  code_verifier : Option String := none
  client_id : Option String := none
  redirect_uri : Option String := none
  resource : Option String := none
deriving DecidableEq

/-- Response of the authorize endpoint: a JSON error with HTTP status,
or a redirect (`res.redirect`, status 302) whose target is the
`redirect_uri` with the given query parameters appended in order. -/
inductive AuthorizeResult where
  | error (status : Nat) (err descr : String)
  | redirect (status : Nat) (base : String) (params : List (String × String))
deriving DecidableEq

/-- Response of the token endpoint: a JSON error, or the success JSON
body (`scope = none` models the field being omitted). -/
inductive TokenResult where
  | error (status : Nat) (err descr : String)
  | ok (accessToken tokenType : String) (expiresIn : Nat) (scope : Option String)
deriving DecidableEq

/-- Outcome of the bearer-validation middleware: a 401/500 JSON error
(with the optional WWW-Authenticate header value) or `next()`. -/
inductive MiddlewareResult where
  | reject (status : Nat) (err descr : String) (wwwAuth : Option String)
  | next
deriving DecidableEq

/-! ### The handlers -/

/-- The `GET /authorize` handler `handleAuthorize` from the source.
`fresh` stands for the value of `generateRandomString(32)` and `now`
for `Date.now()`.  Returns the new server state and the response. -/
def handleAuthorize (baseUrl : String) (st : ServerState) (q : AuthorizeRequest)
    (now : Nat) (fresh : String) : ServerState × AuthorizeResult :=
  if !jsTruthy q.client_id || !jsTruthy q.redirect_uri || !jsTruthy q.response_type
      || !jsTruthy q.code_challenge || !jsTruthy q.code_challenge_method then
    (st, .error 400 "invalid_request" "Missing required parameters")
  else if q.response_type != some "code" then
    (st, .error 400 "unsupported_response_type" "Only authorization_code flow is supported")
  else if q.code_challenge_method != some "S256" then
    (st, .error 400 "invalid_request" "Only S256 code_challenge_method is supported")
  else if !strStartsWith (jsStr q.redirect_uri) "https://claude.ai/"
      && !strStartsWith (jsStr q.redirect_uri) "https://claude.com/" then
    (st, .error 400 "invalid_request" "Invalid redirect_uri")
  else
    let session : AuthorizationSession :=
      { codeChallenge := jsStr q.code_challenge
        codeChallengeMethod := jsStr q.code_challenge_method
        redirectUri := jsStr q.redirect_uri
        clientId := jsStr q.client_id
        scope := jsOr q.scope ""
        state := jsOr q.state ""
        resource := jsOr q.resource baseUrl
        createdAt := now }
    ({ st with authorizationCodes := mapSet st.authorizationCodes fresh session },
     .redirect 302 (jsStr q.redirect_uri)
       (("code", fresh) :: (if jsTruthy q.state then [("state", jsStr q.state)] else [])))

/-- The `POST /token` handler `handleToken` from the source.  `fresh`
stands for the value of `generateRandomString(48)` and `now` for
`Date.now()`.  Returns the new server state, the response, and the
audit-log events emitted. -/
def handleToken (st : ServerState) (b : TokenRequest) (now : Nat)
    (fresh : String) : ServerState × TokenResult × List LogEvent :=
  if !jsTruthy b.grant_type || !jsTruthy b.code || !jsTruthy b.code_verifier
      || !jsTruthy b.client_id then
    (st, .error 400 "invalid_request" "Missing required parameters", [])
  else if b.grant_type != some "authorization_code" then
    (st, .error 400 "unsupported_grant_type" "Only authorization_code grant is supported", [])
  else
    match mapGet st.authorizationCodes (jsStr b.code) with
    | none =>
        (st, .error 400 "invalid_grant" "Invalid or expired authorization code",
         [.authFailure "invalid_authorization_code"])
    | some session =>
        if !verifyCodeChallenge (jsStr b.code_verifier) session.codeChallenge
            session.codeChallengeMethod then
          ({ st with authorizationCodes := mapErase st.authorizationCodes (jsStr b.code) },
           .error 400 "invalid_grant" "Invalid code_verifier",
           [.authFailure "invalid_code_verifier"])
        else if b.client_id != some session.clientId then
          ({ st with authorizationCodes := mapErase st.authorizationCodes (jsStr b.code) },
           .error 400 "invalid_grant" "client_id mismatch",
           [.authFailure "client_id_mismatch"])
        else if jsTruthy b.redirect_uri && b.redirect_uri != some session.redirectUri then
          ({ st with authorizationCodes := mapErase st.authorizationCodes (jsStr b.code) },
           .error 400 "invalid_grant" "redirect_uri mismatch",
           [.authFailure "redirect_uri_mismatch"])
        else
          let tokenData : AccessToken :=
            { token := fresh
              clientId := jsStr b.client_id
              scope := session.scope
              resource := session.resource
              expiresAt := now + 3600 * 1000
              createdAt := now }
          ({ authorizationCodes := mapErase st.authorizationCodes (jsStr b.code),
             accessTokens := mapSet st.accessTokens fresh tokenData },
           .ok fresh "Bearer" 3600
             (if session.scope == "" then none else some session.scope),
           [.authAttempt true (jsStr b.client_id)])

/-- The WWW-Authenticate header value built for a missing or malformed
Authorization header (`baseUrl` is optional, with JS truthiness). -/
def wwwAuthHeader (baseUrl : Option String) : String :=
  let url := if jsTruthy baseUrl then
      jsStr baseUrl ++ "/.well-known/oauth-protected-resource"
    else "/.well-known/oauth-protected-resource"
  "Bearer resource_metadata=\"" ++ url ++ "\", scope=\"mcp\""

/-- The bearer-validation middleware `validateBearerToken` from the
source.  Takes only the access-token store (the middleware never touches
the session store), the Authorization header, and `now`; returns the new
token store, the outcome, and the audit-log events. -/
def validateBearerToken (baseUrl : Option String)
    (tokens : List (String × AccessToken)) (authHeader : Option String)
    (now : Nat) : List (String × AccessToken) × MiddlewareResult × List LogEvent :=
  if !jsTruthy authHeader || !strStartsWith (jsStr authHeader) "Bearer " then
    (tokens, .reject 401 "invalid_token" "Missing or invalid Authorization header"
       (some (wwwAuthHeader baseUrl)), [])
  else
    let token := jsSubstringFrom 7 (jsStr authHeader)
    match mapGet tokens token with
    | none =>
        (tokens, .reject 401 "invalid_token" "Invalid or expired access token" none,
         [.authFailure "invalid_access_token"])
    | some tokenData =>
        if now > tokenData.expiresAt then
          (mapErase tokens token,
           .reject 401 "invalid_token" "Token has expired" none,
           [.authFailure "expired_access_token"])
        else
          (tokens, .next, [])

/-- One run of the `setInterval` sweep from the source: drop sessions
older than 10 minutes and tokens past their `expiresAt`. -/
def sweepExpired (now : Nat) (st : ServerState) : ServerState :=
  { authorizationCodes :=
      st.authorizationCodes.filter (fun p => decide (!(now - p.2.createdAt > 10 * 60 * 1000) = true))
    accessTokens :=
      st.accessTokens.filter (fun p => decide (!(now > p.2.expiresAt) = true)) }

/-! ### Reachable states

Every mutation of the two stores goes through one of the four
operations below; `Reachable` closes the empty initial state under
them. -/

/-- One externally triggered operation on the server state. -/
inductive Op where
  | authorizeOp (baseUrl : String) (q : AuthorizeRequest) (now : Nat) (fresh : String)
  | tokenOp (b : TokenRequest) (now : Nat) (fresh : String)
  | middlewareOp (baseUrl : Option String) (authHeader : Option String) (now : Nat)
  | sweepOp (now : Nat)

/-- State transition of one operation (responses discarded). -/
def stepState (st : ServerState) : Op → ServerState
  | .authorizeOp baseUrl q now fresh => (handleAuthorize baseUrl st q now fresh).1
  | .tokenOp b now fresh => (handleToken st b now fresh).1
  | .middlewareOp baseUrl h now =>
      { st with accessTokens := (validateBearerToken baseUrl st.accessTokens h now).1 }
  | .sweepOp now => sweepExpired now st

/-- States reachable from the empty initial state through the public
operations. -/
inductive Reachable : ServerState → Prop
  | init : Reachable { authorizationCodes := [], accessTokens := [] }
  | step {st : ServerState} (op : Op) : Reachable st → Reachable (stepState st op)

/-! ### Basic lemmas about the store and string models -/

set_option maxRecDepth 16000

theorem mapGet_mapErase {α : Type} (m : List (String × α)) (k : String) :
    mapGet (mapErase m k) k = none := by
  induction m with
  | nil => rfl
  | cons hd tl ih =>
      by_cases h : hd.1 = k
      · rw [show mapErase (hd :: tl) k = mapErase tl k by
          simp [mapErase, List.filter_cons, h]]
        exact ih
      · rw [show mapErase (hd :: tl) k = hd :: mapErase tl k by
          simp [mapErase, List.filter_cons, h]]
        rw [show mapGet (hd :: mapErase tl k) k = mapGet (mapErase tl k) k by
          simp [mapGet, List.find?_cons, h]]
        exact ih

theorem mem_mapSet {α : Type} {p : String × α} {m : List (String × α)} {k : String} {v : α}
    (h : p ∈ mapSet m k v) : p = (k, v) ∨ p ∈ m := by
  induction m with
  | nil => simpa [mapSet] using h
  | cons hd tl ih =>
      by_cases hk : hd.1 = k
      · rw [mapSet, if_pos (by simpa using hk)] at h
        rcases List.mem_cons.mp h with h' | h'
        · exact Or.inl h'
        · exact Or.inr (List.mem_cons_of_mem hd h')
      · rw [mapSet, if_neg (by simpa using hk)] at h
        rcases List.mem_cons.mp h with h' | h'
        · exact Or.inr (h' ▸ List.mem_cons_self hd tl)
        · rcases ih h' with h'' | h''
          · exact Or.inl h''
          · exact Or.inr (List.mem_cons_of_mem hd h'')

theorem mem_mapErase {α : Type} {p : String × α} {m : List (String × α)} {k : String}
    (h : p ∈ mapErase m k) : p ∈ m :=
  List.mem_of_mem_filter h

theorem mapGet_mem {α : Type} {m : List (String × α)} {k : String} {v : α}
    (h : mapGet m k = some v) : ∃ p, p ∈ m ∧ p.2 = v := by
  unfold mapGet at h
  cases hf : m.find? (fun p => p.1 == k) with
  | none => rw [hf] at h; simp at h
  | some p =>
      rw [hf] at h
      simp at h
      exact ⟨p, List.mem_of_find?_eq_some hf, h⟩

theorem strDataAppend (a b : String) : (a ++ b).data = a.data ++ b.data := by
  cases a; cases b; rfl

theorem strMkData (s : String) : String.mk s.data = s := by
  cases s; rfl

theorem charsLeadWith_self_append (l r : List Char) :
    charsLeadWith (l ++ r) l = true := by
  induction l with
  | nil => cases r <;> rfl
  | cons a as ih => simp [charsLeadWith, ih]

theorem bearer_truthy (t : String) : jsTruthy (some ("Bearer " ++ t)) = true := by
  simp only [jsTruthy, bne_iff_ne, ne_eq, decide_eq_true_eq]
  intro h
  have hd := congrArg String.data h
  rw [strDataAppend] at hd
  rcases List.append_eq_nil.mp hd with ⟨h1, _⟩
  exact absurd h1 (by decide)

theorem bearer_leads (t : String) :
    strStartsWith ("Bearer " ++ t) "Bearer " = true := by
  unfold strStartsWith
  rw [strDataAppend]
  exact charsLeadWith_self_append _ _

theorem bearer_drop (t : String) : jsSubstringFrom 7 ("Bearer " ++ t) = t := by
  unfold jsSubstringFrom
  rw [strDataAppend]
  have h7 : ("Bearer " : String).data.length = 7 := by decide
  rw [← h7, List.drop_left]

/-! ### Claim C4: correctness of the PKCE verifier -/

/-- Claim C4: the pure function `verifyCodeChallenge` returns true for
every string `v` on `(v, base64url(sha256(v)), "S256")` and on
`(v, v, "plain")`; returns false under `"S256"` whenever the encoded
hash of the verifier differs from the challenge; and returns false for
every verifier and challenge under any method other than `"S256"` and
`"plain"`.  (It is a pure Lean function, hence side-effect free.) -/
theorem pkce_verifyCodeChallenge_correct :
    (∀ v : String, verifyCodeChallenge v (sha256base64url v) "S256" = true) ∧
    (∀ v : String, verifyCodeChallenge v v "plain" = true) ∧
    (∀ v c : String, sha256base64url v ≠ c → verifyCodeChallenge v c "S256" = false) ∧
    (∀ v c m : String, m ≠ "S256" → m ≠ "plain" → verifyCodeChallenge v c m = false) := by
  refine ⟨fun v => ?_, fun v => ?_, fun v c h => ?_, fun v c m h1 h2 => ?_⟩
  · simp [verifyCodeChallenge]
  · simp [verifyCodeChallenge]
  · simp [verifyCodeChallenge]
    exact h
  · simp [verifyCodeChallenge, h1, h2]

/-- Concrete instance of C4's third conjunct: a challenge that is not
the encoded hash of the verifier is rejected under S256. -/
theorem pkce_verifyCodeChallenge_correct_witness :
    verifyCodeChallenge "abc" "zzz" "S256" = false :=
  pkce_verifyCodeChallenge_correct.2.2.1 "abc" "zzz" (by decide)

/-! ### Evaluation lemmas for the token endpoint branches -/

theorem jsTruthy_grant : jsTruthy (some "authorization_code") = true := by decide

theorem jsStr_some (s : String) : jsStr (some s) = s := rfl

theorem handleToken_absent_code (st : ServerState) (b : TokenRequest) (now : Nat) (fresh : String)
    (hg : b.grant_type = some "authorization_code")
    (hc : jsTruthy b.code = true) (hv : jsTruthy b.code_verifier = true)
    (hid : jsTruthy b.client_id = true)
    (habs : mapGet st.authorizationCodes (jsStr b.code) = none) :
    handleToken st b now fresh =
      (st, .error 400 "invalid_grant" "Invalid or expired authorization code",
       [.authFailure "invalid_authorization_code"]) := by
  unfold handleToken
  rw [hg]
  simp [jsTruthy_grant, hc, hv, hid, habs]

theorem handleToken_ok_inv (st : ServerState) (b : TokenRequest) (now : Nat) (fresh : String)
    (st' : ServerState) (tk tt : String) (ei : Nat) (sc : Option String) (logs : List LogEvent)
    (h : handleToken st b now fresh = (st', .ok tk tt ei sc, logs)) :
    jsTruthy b.code = true ∧
      st'.authorizationCodes = mapErase st.authorizationCodes (jsStr b.code) := by
  unfold handleToken at h
  split at h
  · simp at h
  · rename_i hcond1
    have hcode : jsTruthy b.code = true := by
      cases hcb : jsTruthy b.code with
      | true => rfl
      | false => exact absurd (by simp [hcb]) hcond1
    refine ⟨hcode, ?_⟩
    split at h
    · simp at h
    · split at h
      · simp at h
      · split at h
        · simp at h
        · split at h
          · simp at h
          · split at h
            · simp at h
            · have h1 := congrArg (fun p => p.1) h
              simp at h1
              rw [← h1]

/-! ### Claim C1: one-time use of authorization codes -/

/-- Claim C1 (amended): once `handleToken` has successfully exchanged a
code `C`, any second exchange attempt presenting the same code — with
the required parameters present and `grant_type = authorization_code`,
so that the attempt reaches the code lookup — receives HTTP 400
`invalid_grant`, because the success path deleted the session keyed by
`C`.  (A second attempt failing the earlier parameter checks receives
400 `invalid_request` or `unsupported_grant_type` instead, which is the
one correction to the claim as stated.) -/
theorem token_code_one_time_use (st : ServerState) (b : TokenRequest) (now : Nat)
    (fresh : String) (st' : ServerState) (tk tt : String) (ei : Nat) (sc : Option String)
    (logs : List LogEvent)
    (hsucc : handleToken st b now fresh = (st', .ok tk tt ei sc, logs))
    (b2 : TokenRequest) (now2 : Nat) (fresh2 : String)
    (hg2 : b2.grant_type = some "authorization_code")
    (hv2 : jsTruthy b2.code_verifier = true)
    (hid2 : jsTruthy b2.client_id = true)
    (hcode2 : b2.code = b.code) :
    handleToken st' b2 now2 fresh2 =
      (st', .error 400 "invalid_grant" "Invalid or expired authorization code",
       [.authFailure "invalid_authorization_code"]) := by
  obtain ⟨hcode, hsess⟩ := handleToken_ok_inv st b now fresh st' tk tt ei sc logs hsucc
  refine handleToken_absent_code st' b2 now2 fresh2 hg2 ?_ hv2 hid2 ?_
  · rw [hcode2]; exact hcode
  · rw [hcode2, hsess]
    exact mapGet_mapErase _ _

/-- Example fixtures for C1: a single plain-method session, the
well-formed exchange request, the resulting state, and a second request
with an unsupported grant type. -/
def exC1St : ServerState :=
  { authorizationCodes :=
      [("codeC", { codeChallenge := "verif", codeChallengeMethod := "plain",
                   redirectUri := "https://claude.ai/cb", clientId := "abc",
                   scope := "", state := "", resource := "https://srv.example",
                   createdAt := 0 })],
    accessTokens := [] }

/-- The well-formed exchange request for the C1 fixture. -/
def exC1B : TokenRequest :=
  { grant_type := some "authorization_code", code := some "codeC",
    code_verifier := some "verif", client_id := some "abc" }

/-- The state after the C1 fixture exchange succeeds. -/
def exC1St2 : ServerState :=
  { authorizationCodes := [],
    accessTokens :=
      [("tokT", { token := "tokT", clientId := "abc", scope := "",
                  resource := "https://srv.example", expiresAt := 100 + 3600 * 1000,
                  createdAt := 100 })] }

/-- A second exchange request for the same code with an unsupported
grant type. -/
def exC1Bbad : TokenRequest :=
  { grant_type := some "client_credentials", code := some "codeC",
    code_verifier := some "verif", client_id := some "abc" }

/-- Concrete run of C1: a successful exchange of code "codeC" followed
by a well-formed second exchange of the same code, which is rejected
with `invalid_grant`. -/
theorem token_code_one_time_use_witness :
    handleToken exC1St exC1B 100 "tokT" =
      (exC1St2, .ok "tokT" "Bearer" 3600 none, [.authAttempt true "abc"]) ∧
    handleToken exC1St2 exC1B 200 "tokU" =
      (exC1St2, .error 400 "invalid_grant" "Invalid or expired authorization code",
       [.authFailure "invalid_authorization_code"]) :=
  ⟨rfl, token_code_one_time_use exC1St exC1B 100 "tokT" exC1St2 "tokT" "Bearer" 3600
    none [.authAttempt true "abc"] rfl exC1B 200 "tokU" rfl (by decide) (by decide) rfl⟩

/-- Counterexample to C1 as stated: the second exchange attempt of an
already-consumed code made with `grant_type = "client_credentials"`
receives 400 `unsupported_grant_type`, not `invalid_grant`, because the
grant-type check runs before the code lookup. -/
theorem token_code_one_time_use_counterexample :
    handleToken exC1St exC1B 100 "tokT" =
      (exC1St2, .ok "tokT" "Bearer" 3600 none, [.authAttempt true "abc"]) ∧
    handleToken exC1St2 exC1Bbad 200 "tokU" =
      (exC1St2,
       .error 400 "unsupported_grant_type" "Only authorization_code grant is supported",
       []) :=
  ⟨rfl, rfl⟩

/-! ### Claim C3: a failed PKCE check burns the code -/

/-- Claim C3: a `/token` exchange whose `code_verifier` fails the PKCE
check against the stored challenge returns HTTP 400 `invalid_grant` and
deletes the session, so every subsequent well-formed exchange of the
same code — in particular one with the correct verifier — also fails
with `invalid_grant`. -/
theorem token_tamper_burns_code (st : ServerState) (b : TokenRequest) (now : Nat)
    (fresh : String) (sess : AuthorizationSession)
    (hg : b.grant_type = some "authorization_code")
    (hc : jsTruthy b.code = true) (hv : jsTruthy b.code_verifier = true)
    (hid : jsTruthy b.client_id = true)
    (hsess : mapGet st.authorizationCodes (jsStr b.code) = some sess)
    (hver : verifyCodeChallenge (jsStr b.code_verifier) sess.codeChallenge
        sess.codeChallengeMethod = false) :
    handleToken st b now fresh =
      ({ st with authorizationCodes := mapErase st.authorizationCodes (jsStr b.code) },
       .error 400 "invalid_grant" "Invalid code_verifier",
       [.authFailure "invalid_code_verifier"]) ∧
    (∀ (b2 : TokenRequest) (now2 : Nat) (fresh2 : String),
      b2.grant_type = some "authorization_code" →
      jsTruthy b2.code_verifier = true →
      jsTruthy b2.client_id = true →
      b2.code = b.code →
      handleToken
          { st with authorizationCodes := mapErase st.authorizationCodes (jsStr b.code) }
          b2 now2 fresh2 =
        ({ st with authorizationCodes := mapErase st.authorizationCodes (jsStr b.code) },
         .error 400 "invalid_grant" "Invalid or expired authorization code",
         [.authFailure "invalid_authorization_code"])) := by
  constructor
  · unfold handleToken
    rw [hg]
    simp [jsTruthy_grant, hc, hv, hid, hsess, hver]
  · intro b2 now2 fresh2 hg2 hv2 hid2 hcode2
    refine handleToken_absent_code _ b2 now2 fresh2 hg2 ?_ hv2 hid2 ?_
    · rw [hcode2]; exact hc
    · rw [hcode2]
      exact mapGet_mapErase _ _

/-- Example fixture for C3: a single plain-method session and a
tampered exchange request whose verifier does not match. -/
def exC3St : ServerState :=
  { authorizationCodes :=
      [("codeC", { codeChallenge := "rightVerifier", codeChallengeMethod := "plain",
                   redirectUri := "https://claude.ai/cb", clientId := "abc",
                   scope := "", state := "", resource := "https://srv.example",
                   createdAt := 0 })],
    accessTokens := [] }

/-- The tampered exchange request for the C3 fixture. -/
def exC3Bbad : TokenRequest :=
  { grant_type := some "authorization_code", code := some "codeC",
    code_verifier := some "wrongVerifier", client_id := some "abc" }

/-- A follow-up exchange request with the correct verifier for the C3
fixture. -/
def exC3Bgood : TokenRequest :=
  { grant_type := some "authorization_code", code := some "codeC",
    code_verifier := some "rightVerifier", client_id := some "abc" }

/-- Concrete run of C3: the tampered exchange is rejected with
`invalid_grant` and burns the code, and the follow-up exchange with the
correct verifier is also rejected with `invalid_grant`. -/
theorem token_tamper_burns_code_witness :
    handleToken exC3St exC3Bbad 100 "tokT" =
      ({ exC3St with authorizationCodes := mapErase exC3St.authorizationCodes "codeC" },
       .error 400 "invalid_grant" "Invalid code_verifier",
       [.authFailure "invalid_code_verifier"]) ∧
    handleToken
        { exC3St with authorizationCodes := mapErase exC3St.authorizationCodes "codeC" }
        exC3Bgood 200 "tokU" =
      ({ exC3St with authorizationCodes := mapErase exC3St.authorizationCodes "codeC" },
       .error 400 "invalid_grant" "Invalid or expired authorization code",
       [.authFailure "invalid_authorization_code"]) := by
  have h := token_tamper_burns_code exC3St exC3Bbad 100 "tokT"
    { codeChallenge := "rightVerifier", codeChallengeMethod := "plain",
      redirectUri := "https://claude.ai/cb", clientId := "abc",
      scope := "", state := "", resource := "https://srv.example", createdAt := 0 }
    rfl (by decide) (by decide) (by decide) rfl (by decide)
  exact ⟨h.1, h.2 exC3Bgood 200 "tokU" rfl (by decide) (by decide) rfl⟩

/-! ### Claim C2: session expiry is not re-checked at the token endpoint -/

/-- Example fixture for C2: a genuine S256 session created at time 0
whose challenge is the base64url-encoded SHA-256 of "verifierV". -/
def exC2St : ServerState :=
  { authorizationCodes :=
      [("codeC", { codeChallenge := "zyCE3UGkxIlgLJ_OdBbGUqXU3CNq-UZbUQyJkI2d4H8",
                   codeChallengeMethod := "S256",
                   redirectUri := "https://claude.ai/cb", clientId := "abc",
                   scope := "", state := "", resource := "https://srv.example",
                   createdAt := 0 })],
    accessTokens := [] }

/-- The exchange request for the C2 fixture, carrying the correct
verifier. -/
def exC2B : TokenRequest :=
  { grant_type := some "authorization_code", code := some "codeC",
    code_verifier := some "verifierV", client_id := some "abc" }

/-- Claim C2 fails on the code: `handleToken` performs no expiry check
of its own.  For a session created at time 0, an exchange at time
601000 ms (T + 10 minutes + 1 second) with no intervening sweep run
succeeds with HTTP 200 and mints an access token — even though the
session is past the 10-minute lifetime, as the second conjunct shows:
the sweep itself, had it run at that instant, would have evicted the
session.  The stored challenge is the base64url SHA-256 of the
verifier, so the PKCE check is genuinely passed. -/
theorem token_accepts_expired_session_without_sweep :
    sha256base64url "verifierV" = "zyCE3UGkxIlgLJ_OdBbGUqXU3CNq-UZbUQyJkI2d4H8" ∧
    (sweepExpired 601000 exC2St).authorizationCodes = [] ∧
    handleToken exC2St exC2B 601000 "tokT" =
      ({ authorizationCodes := [],
         accessTokens :=
           [("tokT", { token := "tokT", clientId := "abc", scope := "",
                       resource := "https://srv.example",
                       expiresAt := 601000 + 3600 * 1000, createdAt := 601000 })] },
       .ok "tokT" "Bearer" 3600 none, [.authAttempt true "abc"]) :=
  ⟨rfl, rfl, rfl⟩

/-! ### Claim C8: the token-endpoint success path -/

/-- Claim C8: when all checks of `handleToken` pass, the handler
deletes the session, stores a new access token keyed by the freshly
generated token value with `expiresAt = createdAt + 3600 * 1000` ms and
the session's `clientId`, `scope` and `resource`, and responds
(HTTP 200) with the token, token type "Bearer", `expires_in` 3600 and a
scope field present exactly when the session's scope is non-empty. -/
theorem token_success_path (st : ServerState) (b : TokenRequest) (now : Nat)
    (fresh : String) (sess : AuthorizationSession)
    (hg : b.grant_type = some "authorization_code")
    (hc : jsTruthy b.code = true) (hv : jsTruthy b.code_verifier = true)
    (hid : jsTruthy b.client_id = true)
    (hsess : mapGet st.authorizationCodes (jsStr b.code) = some sess)
    (hver : verifyCodeChallenge (jsStr b.code_verifier) sess.codeChallenge
        sess.codeChallengeMethod = true)
    (hcid : b.client_id = some sess.clientId)
    (hred : jsTruthy b.redirect_uri = false ∨ b.redirect_uri = some sess.redirectUri) :
    handleToken st b now fresh =
      ({ authorizationCodes := mapErase st.authorizationCodes (jsStr b.code),
         accessTokens := mapSet st.accessTokens fresh
           { token := fresh, clientId := sess.clientId, scope := sess.scope,
             resource := sess.resource, expiresAt := now + 3600 * 1000, createdAt := now } },
       .ok fresh "Bearer" 3600 (if sess.scope == "" then none else some sess.scope),
       [.authAttempt true sess.clientId]) := by
  rw [hcid] at hid
  unfold handleToken
  rw [hg, hcid]
  rcases hred with hr | hr
  · simp [jsTruthy_grant, hc, hv, hid, hsess, hver, hr, jsStr_some]
  · rw [hr]
    simp [jsTruthy_grant, hc, hv, hid, hsess, hver, jsStr_some]

/-- Example fixture for C8: a session with a non-empty scope. -/
def exC8St : ServerState :=
  { authorizationCodes :=
      [("codeC", { codeChallenge := "verif", codeChallengeMethod := "plain",
                   redirectUri := "https://claude.ai/cb", clientId := "abc",
                   scope := "mcp", state := "xyz", resource := "https://srv.example",
                   createdAt := 0 })],
    accessTokens := [] }

/-- The exchange request for the C8 fixture (matching redirect_uri
supplied). -/
def exC8B : TokenRequest :=
  { grant_type := some "authorization_code", code := some "codeC",
    code_verifier := some "verif", client_id := some "abc",
    redirect_uri := some "https://claude.ai/cb" }

/-- Concrete run of C8: the exchange succeeds, burns the session,
stores the token with a one-hour lifetime and reports the non-empty
scope. -/
theorem token_success_path_witness :
    handleToken exC8St exC8B 100 "tokT" =
      ({ authorizationCodes := mapErase exC8St.authorizationCodes "codeC",
         accessTokens := mapSet exC8St.accessTokens "tokT"
           { token := "tokT", clientId := "abc", scope := "mcp",
             resource := "https://srv.example", expiresAt := 100 + 3600 * 1000,
             createdAt := 100 } },
       .ok "tokT" "Bearer" 3600 (some "mcp"), [.authAttempt true "abc"]) :=
  token_success_path exC8St exC8B 100 "tokT"
    { codeChallenge := "verif", codeChallengeMethod := "plain",
      redirectUri := "https://claude.ai/cb", clientId := "abc",
      scope := "mcp", state := "xyz", resource := "https://srv.example", createdAt := 0 }
    rfl (by decide) (by decide) (by decide) rfl (by decide) rfl (Or.inr rfl)

/-! ### Claims C5 and C9: the bearer-validation middleware -/

/-- Claim C5: an access token present in the store whose `expiresAt`
is strictly in the past is rejected with HTTP 401 `invalid_token`
("Token has expired"), deleted from the store, and an `authFailure` is
logged — the request never reaches the protected handler. -/
theorem middleware_expired_token (baseUrl : Option String)
    (tokens : List (String × AccessToken)) (tok : String) (d : AccessToken) (now : Nat)
    (hget : mapGet tokens tok = some d) (hexp : now > d.expiresAt) :
    validateBearerToken baseUrl tokens (some ("Bearer " ++ tok)) now =
      (mapErase tokens tok,
       .reject 401 "invalid_token" "Token has expired" none,
       [.authFailure "expired_access_token"]) := by
  unfold validateBearerToken
  simp [bearer_truthy, bearer_leads, bearer_drop, jsStr_some, hget, hexp]

/-- Concrete run of C5: a token that expired at 1000 ms presented at
1001 ms is deleted and rejected with "Token has expired". -/
theorem middleware_expired_token_witness :
    validateBearerToken (some "https://srv.example")
        [("tok1", { token := "tok1", clientId := "abc", scope := "",
                    resource := "https://srv.example", expiresAt := 1000, createdAt := 0 })]
        (some ("Bearer " ++ "tok1")) 1001 =
      ([], .reject 401 "invalid_token" "Token has expired" none,
       [.authFailure "expired_access_token"]) :=
  middleware_expired_token (some "https://srv.example")
    [("tok1", { token := "tok1", clientId := "abc", scope := "",
                resource := "https://srv.example", expiresAt := 1000, createdAt := 0 })]
    "tok1"
    { token := "tok1", clientId := "abc", scope := "",
      resource := "https://srv.example", expiresAt := 1000, createdAt := 0 }
    1001 rfl (by decide)

/-- Claim C9: presenting a stored, unexpired token lets the request
proceed (`next`) and leaves the token store exactly unchanged — no
rotation, no sliding expiry, no log entry; and at the level of the full
server state, the middleware operation leaves both stores unchanged
(it never touches the session store at all). -/
theorem middleware_valid_token_noop (baseUrl : Option String)
    (tokens : List (String × AccessToken)) (tok : String) (d : AccessToken) (now : Nat)
    (hget : mapGet tokens tok = some d) (hexp : ¬ now > d.expiresAt) :
    validateBearerToken baseUrl tokens (some ("Bearer " ++ tok)) now =
      (tokens, .next, []) ∧
    (∀ st : ServerState, st.accessTokens = tokens →
      stepState st (.middlewareOp baseUrl (some ("Bearer " ++ tok)) now) = st) := by
  have h1 : validateBearerToken baseUrl tokens (some ("Bearer " ++ tok)) now =
      (tokens, .next, []) := by
    unfold validateBearerToken
    simp [bearer_truthy, bearer_leads, bearer_drop, jsStr_some, hget, hexp]
  refine ⟨h1, ?_⟩
  intro st hst
  cases st with
  | mk codes toks =>
      simp only [stepState]
      simp only at hst
      rw [hst, h1]

/-- Concrete run of C9: a valid unexpired token yields `next` with the
store untouched, and the full server state is unchanged. -/
theorem middleware_valid_token_noop_witness :
    validateBearerToken (some "https://srv.example")
        [("tok1", { token := "tok1", clientId := "abc", scope := "",
                    resource := "https://srv.example", expiresAt := 1000, createdAt := 0 })]
        (some ("Bearer " ++ "tok1")) 999 =
      ([("tok1", { token := "tok1", clientId := "abc", scope := "",
                   resource := "https://srv.example", expiresAt := 1000, createdAt := 0 })],
       .next, []) ∧
    stepState
        { authorizationCodes := [],
          accessTokens :=
            [("tok1", { token := "tok1", clientId := "abc", scope := "",
                        resource := "https://srv.example", expiresAt := 1000,
                        createdAt := 0 })] }
        (.middlewareOp (some "https://srv.example") (some ("Bearer " ++ "tok1")) 999) =
      { authorizationCodes := [],
        accessTokens :=
          [("tok1", { token := "tok1", clientId := "abc", scope := "",
                      resource := "https://srv.example", expiresAt := 1000,
                      createdAt := 0 })] } := by
  have h := middleware_valid_token_noop (some "https://srv.example")
    [("tok1", { token := "tok1", clientId := "abc", scope := "",
                resource := "https://srv.example", expiresAt := 1000, createdAt := 0 })]
    "tok1"
    { token := "tok1", clientId := "abc", scope := "",
      resource := "https://srv.example", expiresAt := 1000, createdAt := 0 }
    999 rfl (by decide)
  exact ⟨h.1, h.2 _ rfl⟩

/-! ### Claims C6 and C7: the authorize endpoint

`specHostOf` below follows the spec's words ("the redirect_uri's host
is in the allow-list of trusted callback origins"): it extracts the
host component of a URI (authority after the scheme separator, userinfo
and port stripped).  It is the refinement-side definition used to
compare the spec's host-based reading with the source's
`startsWith` check. -/

/-- URI characters after the first "://" scheme separator. -/
def afterSchemeChars : List Char → List Char
  | [] => []
  | c :: rest =>
      if charsLeadWith (c :: rest) [':', '/', '/'] then rest.drop 2
      else afterSchemeChars rest

/-- The authority component: characters up to the first path, query or
fragment delimiter. -/
def authorityChars (l : List Char) : List Char :=
  l.takeWhile (fun c => c != '/' && c != '?' && c != '#')

/-- The host inside an authority: drop the userinfo (up to the last
'@') and the port (after ':'). -/
def hostChars (l : List Char) : List Char :=
  let auth := authorityChars l
  let afterUser :=
    if auth.contains '@' then (auth.reverse.takeWhile (fun c => c != '@')).reverse
    else auth
  afterUser.takeWhile (fun c => c != ':')

/-- Host component of a URI, following the spec's notion of the
redirect URI's host. -/
def specHostOf (uri : String) : String :=
  String.mk (hostChars (afterSchemeChars uri.data))

theorem jsTruthy_code : jsTruthy (some "code") = true := by decide

theorem jsTruthy_S256 : jsTruthy (some "S256") = true := by decide

/-- Claim C6 (amended): for an authorize request passing the earlier
checks, the handler answers 400 `invalid_request` ("Invalid
redirect_uri") with the session store unchanged exactly when the
`redirect_uri` string does not start with "https://claude.ai/" or
"https://claude.com/".  This is a string-prefix check, not a host
check: URIs naming an allowed host with an explicit port or userinfo
are also rejected (see the counterexample). -/
theorem authorize_allow_list (baseUrl : String) (st : ServerState) (q : AuthorizeRequest)
    (now : Nat) (fresh : String)
    (h1 : jsTruthy q.client_id = true) (h2 : jsTruthy q.redirect_uri = true)
    (h4 : jsTruthy q.code_challenge = true)
    (hrt : q.response_type = some "code") (hm : q.code_challenge_method = some "S256") :
    ((handleAuthorize baseUrl st q now fresh).2 =
        .error 400 "invalid_request" "Invalid redirect_uri" ∧
      (handleAuthorize baseUrl st q now fresh).1 = st)
    ↔ (strStartsWith (jsStr q.redirect_uri) "https://claude.ai/" = false ∧
       strStartsWith (jsStr q.redirect_uri) "https://claude.com/" = false) := by
  cases hai : strStartsWith (jsStr q.redirect_uri) "https://claude.ai/" <;>
    cases hcom : strStartsWith (jsStr q.redirect_uri) "https://claude.com/" <;>
    simp [handleAuthorize, h1, h2, h4, hrt, hm, jsTruthy_code, jsTruthy_S256, hai, hcom]

/-- An authorize request whose redirect URI targets an untrusted host. -/
def exC6EvilQ : AuthorizeRequest :=
  { client_id := some "abc", redirect_uri := some "https://evil.example/cb",
    response_type := some "code", code_challenge := some "challengeC",
    code_challenge_method := some "S256" }

/-- Concrete run of C6: the untrusted redirect URI is rejected with
`invalid_request` and no session is created. -/
theorem authorize_allow_list_witness :
    (handleAuthorize "https://srv.example" { authorizationCodes := [], accessTokens := [] }
        exC6EvilQ 100 "codeA").2 =
      .error 400 "invalid_request" "Invalid redirect_uri" ∧
    (handleAuthorize "https://srv.example" { authorizationCodes := [], accessTokens := [] }
        exC6EvilQ 100 "codeA").1 =
      { authorizationCodes := [], accessTokens := [] } :=
  (authorize_allow_list "https://srv.example"
    { authorizationCodes := [], accessTokens := [] } exC6EvilQ 100 "codeA"
    (by decide) (by decide) (by decide) rfl rfl).mpr (by decide)

/-- An authorize request whose redirect URI names the allowed host
claude.ai but with an explicit port. -/
def exC6PortQ : AuthorizeRequest :=
  { client_id := some "abc", redirect_uri := some "https://claude.ai:443/cb",
    response_type := some "code", code_challenge := some "challengeC",
    code_challenge_method := some "S256" }

/-- Counterexample to C6 as stated: "https://claude.ai:443/cb" has host
claude.ai — in the allow-list — yet the handler rejects it with 400
`invalid_request`, because the source checks the string
`startsWith("https://claude.ai/")`, not the URI host. -/
theorem authorize_allow_list_counterexample :
    specHostOf "https://claude.ai:443/cb" = "claude.ai" ∧
    handleAuthorize "https://srv.example" { authorizationCodes := [], accessTokens := [] }
        exC6PortQ 100 "codeA" =
      ({ authorizationCodes := [], accessTokens := [] },
       .error 400 "invalid_request" "Invalid redirect_uri") :=
  ⟨rfl, rfl⟩

/-- Claim C7 (amended): an authorize request passing all four checks
stores exactly one new session keyed by the fresh code — with
`createdAt = now`, scope and state defaulting to "" and resource
defaulting to the server's base URL — and responds with a 302 redirect
to `redirect_uri` carrying `code`, and carrying `state` if and only if
`state` was supplied non-empty (a supplied-but-empty `state` is falsy
in JavaScript and is not appended; that is the one correction). -/
theorem authorize_success_path (baseUrl : String) (st : ServerState) (q : AuthorizeRequest)
    (now : Nat) (fresh : String)
    (h1 : jsTruthy q.client_id = true) (h2 : jsTruthy q.redirect_uri = true)
    (h4 : jsTruthy q.code_challenge = true)
    (hrt : q.response_type = some "code") (hm : q.code_challenge_method = some "S256")
    (hallow : strStartsWith (jsStr q.redirect_uri) "https://claude.ai/" = true ∨
      strStartsWith (jsStr q.redirect_uri) "https://claude.com/" = true) :
    handleAuthorize baseUrl st q now fresh =
      ({ st with authorizationCodes := (mapSet st.authorizationCodes fresh
          ⟨jsStr q.code_challenge, "S256", jsStr q.redirect_uri, jsStr q.client_id,
            jsOr q.scope "", jsOr q.state "", jsOr q.resource baseUrl, now⟩) },
       .redirect 302 (jsStr q.redirect_uri)
         (("code", fresh) ::
           (if jsTruthy q.state then [("state", jsStr q.state)] else []))) := by
  rcases hallow with hr | hr <;>
    simp [handleAuthorize, h1, h2, h4, hrt, hm, jsTruthy_code, jsTruthy_S256, hr, jsStr_some]

/-- A fully valid authorize request with a non-empty state. -/
def exC7Q : AuthorizeRequest :=
  { client_id := some "abc", redirect_uri := some "https://claude.ai/cb",
    response_type := some "code", code_challenge := some "challengeC",
    code_challenge_method := some "S256", state := some "xyz" }

/-- Concrete run of C7: a valid request mints one session with the
defaulted fields and redirects with `code` and the supplied `state`. -/
theorem authorize_success_path_witness :
    handleAuthorize "https://srv.example" { authorizationCodes := [], accessTokens := [] }
        exC7Q 100 "codeA" =
      ({ authorizationCodes :=
          [("codeA", { codeChallenge := "challengeC", codeChallengeMethod := "S256",
                       redirectUri := "https://claude.ai/cb", clientId := "abc",
                       scope := "", state := "xyz", resource := "https://srv.example",
                       createdAt := 100 })],
         accessTokens := [] },
       .redirect 302 "https://claude.ai/cb" [("code", "codeA"), ("state", "xyz")]) :=
  authorize_success_path "https://srv.example"
    { authorizationCodes := [], accessTokens := [] } exC7Q 100 "codeA"
    (by decide) (by decide) (by decide) rfl rfl (Or.inl (by decide))

/-- A valid authorize request whose state is supplied but empty. -/
def exC7EmptyStateQ : AuthorizeRequest :=
  { client_id := some "abc", redirect_uri := some "https://claude.ai/cb",
    response_type := some "code", code_challenge := some "challengeC",
    code_challenge_method := some "S256", state := some "" }

/-- Counterexample to C7 as stated: `state` is supplied (as the empty
string) yet the redirect carries no `state` parameter, because the
source guards the append with JavaScript truthiness (`if (state)`). -/
theorem authorize_success_path_counterexample :
    exC7EmptyStateQ.state = some "" ∧
    handleAuthorize "https://srv.example" { authorizationCodes := [], accessTokens := [] }
        exC7EmptyStateQ 100 "codeA" =
      ({ authorizationCodes :=
          [("codeA", { codeChallenge := "challengeC", codeChallengeMethod := "S256",
                       redirectUri := "https://claude.ai/cb", clientId := "abc",
                       scope := "", state := "", resource := "https://srv.example",
                       createdAt := 100 })],
         accessTokens := [] },
       .redirect 302 "https://claude.ai/cb" [("code", "codeA")]) ∧
    (∀ p ∈ [("code", "codeA")], p.1 ≠ "state") :=
  ⟨rfl, rfl, by decide⟩

/-! ### Claim C10: only S256 sessions are ever stored -/

/-- Every session in any reachable state was inserted by the authorize
handler after its method check, so its `codeChallengeMethod` is "S256". -/
theorem reachable_sessions_S256 (st : ServerState) (h : Reachable st) :
    ∀ p ∈ st.authorizationCodes, p.2.codeChallengeMethod = "S256" := by
  induction h with
  | init => intro p hp; simp at hp
  | step op hst ih =>
      cases op with
      | authorizeOp baseUrl q now fresh =>
          intro p hp
          simp only [stepState] at hp
          unfold handleAuthorize at hp
          split at hp
          · exact ih p hp
          · split at hp
            · exact ih p hp
            · split at hp
              · exact ih p hp
              · rename_i hmcond
                split at hp
                · exact ih p hp
                · rcases mem_mapSet hp with hfresh | hold
                  · have hm : q.code_challenge_method = some "S256" := by
                      simpa [bne_iff_ne] using hmcond
                    rw [hfresh]
                    simp [hm, jsStr_some]
                  · exact ih p hold
      | tokenOp b now fresh =>
          intro p hp
          simp only [stepState] at hp
          unfold handleToken at hp
          split at hp
          · exact ih p hp
          · split at hp
            · exact ih p hp
            · split at hp
              · exact ih p hp
              · split at hp
                · exact ih p (mem_mapErase hp)
                · split at hp
                  · exact ih p (mem_mapErase hp)
                  · split at hp
                    · exact ih p (mem_mapErase hp)
                    · exact ih p (mem_mapErase hp)
      | middlewareOp baseUrl hdr now =>
          intro p hp
          simp only [stepState] at hp
          exact ih p hp
      | sweepOp now =>
          intro p hp
          simp only [stepState] at hp
          exact ih p (List.mem_of_mem_filter hp)

/-- Claim C10: in every state reachable through the public operations,
every stored `AuthorizationSession` has `codeChallengeMethod = "S256"`
(the only inserting operation rejects any other method first) — hence
the token endpoint's call of the PKCE verifier on a looked-up session
never takes the "plain" branch. -/
theorem reachable_sessions_S256_only (st : ServerState) (h : Reachable st)
    (k : String) (sess : AuthorizationSession)
    (hget : mapGet st.authorizationCodes k = some sess) :
    sess.codeChallengeMethod = "S256" := by
  obtain ⟨p, hmem, hsnd⟩ := mapGet_mem hget
  rw [← hsnd]
  exact reachable_sessions_S256 st h p hmem

/-- Concrete instance of C10: the state reached by one valid authorize
operation holds a session whose method is "S256". -/
theorem reachable_sessions_S256_only_witness :
    ({ codeChallenge := "challengeC", codeChallengeMethod := "S256",
       redirectUri := "https://claude.ai/cb", clientId := "abc", scope := "",
       state := "xyz", resource := "https://srv.example",
       createdAt := 100 } : AuthorizationSession).codeChallengeMethod = "S256" :=
  reachable_sessions_S256_only
    (stepState { authorizationCodes := [], accessTokens := [] }
      (.authorizeOp "https://srv.example" exC7Q 100 "codeA"))
    (Reachable.step (.authorizeOp "https://srv.example" exC7Q 100 "codeA") Reachable.init)
    "codeA"
    { codeChallenge := "challengeC", codeChallengeMethod := "S256",
      redirectUri := "https://claude.ai/cb", clientId := "abc", scope := "",
      state := "xyz", resource := "https://srv.example", createdAt := 100 }
    (by rfl)
